import Mathlib

/-!
Shallow embedding of the `monero-nodejs-rpc-client` repository (src/index.js)
together with proofs about its request-building, validation and dispatch
behaviour.

The client is a single class `rpcClient` holding two construction-time fields
(`nodeAddress`, `deserializeJSON`).  Its private `_send` builds a request
descriptor under one of two calling conventions (`_buildJSONRPCReq`,
`_buildOtherRPCReq`), POSTs it, and handles the response in a callback; the
public methods are thin wrappers around `_send`.

JavaScript values relevant to the client are embedded as the inductive
`JSValue`; the pieces of JavaScript semantics the code exercises (typeof,
truthiness, property access including the TypeError on null/undefined,
`JSON.stringify` including its dropping of object entries whose value is
`undefined`, `Number.isInteger`) are given as executable definitions below.
-/

namespace MoneroRpc

/-- A JavaScript value, restricted to the kinds of data this client ever
builds or inspects: `undefined`, `null`, booleans, finite plain-decimal
numbers, strings, arrays and plain objects.  A number is written in scaled
decimal form as `num m e`, denoting `m / 10 ^ e`; every numeric literal in
the source is of this shape (`8` is `num 8 0`, `8.5` is `num 85 1`). -/
inductive JSValue where
  | undef
  | null
  | bool (b : Bool)
  | num (m : Int) (e : Nat)
  | str (s : String)
  | arr (elems : List JSValue)
  | obj (fields : List (String × JSValue))

/-- Lower-case hexadecimal digit, used by the JSON escape for control
characters. -/
def hexDigit (n : Nat) : String :=
  String.singleton (Char.ofNat (if n < 10 then 48 + n else 87 + n))

/-- JSON escaping of a single character, as `JSON.stringify` performs it on
string contents: quote and backslash are escaped, the named control escapes
are used for \n, \t, \r, \b, \f, and the remaining control characters use
the \u00XX form. -/
def escapeChar (c : Char) : String :=
  if c = '"' then "\\\""
  else if c = '\\' then "\\\\"
  else if c = '\n' then "\\n"
  else if c = '\t' then "\\t"
  else if c = '\r' then "\\r"
  else if c.toNat = 8 then "\\b"
  else if c.toNat = 12 then "\\f"
  else if c.toNat < 32 then "\\u00" ++ hexDigit (c.toNat / 16) ++ hexDigit (c.toNat % 16)
  else String.singleton c

/-- A JSON string literal: the escaped contents between double quotes. -/
def quoteJSON (s : String) : String :=
  "\"" ++ String.join (s.toList.map escapeChar) ++ "\""

/-- Decimal rendering of the number `m / 10 ^ e`, matching how JavaScript
prints the plain-decimal numbers this client handles: an integer prints with
no decimal point, otherwise the digit string of `m` is split `e` digits from
the right (zero-padded when needed). -/
def numToString (m : Int) (e : Nat) : String :=
  if e = 0 then toString m
  else
    let ds := (toString m.natAbs).toList
    let ds := List.replicate (e + 1 - ds.length) '0' ++ ds
    (if m < 0 then "-" else "") ++
      String.mk (ds.take (ds.length - e)) ++ "." ++ String.mk (ds.drop (ds.length - e))

mutual

/-- `JSON.stringify`.  It returns no string at all on `undefined` (the call
`JSON.stringify(undefined)` evaluates to `undefined`, not to a string), and
inside an object it drops every entry whose value serializes to nothing —
this is why a `params: undefined` entry disappears from a serialized
envelope.  Cyclic structures, the one way `JSON.stringify` can throw on the
values this client passes, cannot be formed in the inductive `JSValue`, so
serialization is total here and the rethrow branches of the two request
builders (src/index.js lines 80-87 and 98-100) are unreachable in the
model. -/
def stringifyVal : JSValue → Option String
  | JSValue.undef => none
  | JSValue.null => some "null"
  | JSValue.bool b => some (if b then "true" else "false")
  | JSValue.num m e => some (numToString m e)
  | JSValue.str s => some (quoteJSON s)
  | JSValue.arr xs => some ("[" ++ stringifyElems xs ++ "]")
  | JSValue.obj fs => some ("\x7b" ++ stringifyFields fs ++ "\x7d")

/-- Array elements, comma-separated; an element that serializes to nothing
(an `undefined` element) prints as `null`, as `JSON.stringify` does. -/
def stringifyElems : List JSValue → String
  | [] => ""
  | [v] => (stringifyVal v).getD "null"
  | v :: w :: rest => (stringifyVal v).getD "null" ++ "," ++ stringifyElems (w :: rest)

/-- Object entries, comma-separated, each as `"key":value`; entries whose
value serializes to nothing are dropped. -/
def stringifyFields : List (String × JSValue) → String
  | [] => ""
  | (k, v) :: rest =>
    match stringifyVal v with
    | none => stringifyFields rest
    | some sv =>
      match stringifyFields rest with
      | "" => quoteJSON k ++ ":" ++ sv
      | restStr => quoteJSON k ++ ":" ++ sv ++ "," ++ restStr

end

/-- The `typeof` operator on the embedded values. `typeof null` is the string
"object", a detail the block-template validation depends on. -/
def typeofJS : JSValue → String
  | JSValue.undef => "undefined"
  | JSValue.null => "object"
  | JSValue.bool _ => "boolean"
  | JSValue.num _ _ => "number"
  | JSValue.str _ => "string"
  | JSValue.arr _ => "object"
  | JSValue.obj _ => "object"

/-- JavaScript truthiness: `undefined`, `null`, `false`, `0` and the empty
string are falsy; every array and object is truthy. -/
def truthy : JSValue → Bool
  | JSValue.undef => false
  | JSValue.null => false
  | JSValue.bool b => b
  | JSValue.num m _ => !(m == 0)
  | JSValue.str s => !(s == "")
  | JSValue.arr _ => true
  | JSValue.obj _ => true

/-- Whether a value is exactly `undefined` (the `=== undefined` test). -/
def isUndef : JSValue → Bool
  | JSValue.undef => true
  | _ => false

/-- First-match lookup in an object's field list, `undefined` when the key is
absent.  The object literals the source constructs never repeat a key, so
first-match agrees with JavaScript property lookup. -/
def lookupField : List (String × JSValue) → String → JSValue
  | [], _ => JSValue.undef
  | (k, v) :: rest, key => if k = key then v else lookupField rest key

/-- Property read on a value that is known not to be `null`/`undefined`:
objects look the key up, primitives and arrays have none of the properties
this client reads, so the result is `undefined`. -/
def getProp : JSValue → String → JSValue
  | JSValue.obj fs, key => lookupField fs key
  | _, _ => JSValue.undef

/-- Property read as the expression `v.key` evaluates: on `undefined` or
`null` it throws a TypeError, otherwise it yields `getProp`. -/
def member : JSValue → String → Except String JSValue
  | JSValue.undef, key => Except.error ("TypeError: Cannot read property " ++ key ++ " of undefined")
  | JSValue.null, key => Except.error ("TypeError: Cannot read property " ++ key ++ " of null")
  | v, key => Except.ok (getProp v key)

/-- `Number.isInteger`: false on every non-number; on `num m e` (the number
`m / 10 ^ e`) it holds exactly when `10 ^ e` divides `m`. -/
def numberIsInteger : JSValue → Bool
  | JSValue.num m e => m % (10 : Int) ^ e == 0
  | _ => false

/-- The client instance: the two fields the constructor stores
(src/index.js lines 20-23).  `deserializeJSON` defaults to `true` at the
construction site. -/
structure RpcClient where
  nodeAddress : String
  deserializeJSON : Bool
deriving DecidableEq

/-- The request descriptor `_send` hands to `request.post`: a URL and an
optional body (`_buildOtherRPCReq` returns a descriptor with no body field
at all when params is absent). -/
structure Req where
  url : String
  body : Option String
deriving DecidableEq

/-- The four-entry envelope object `_buildJSONRPCReq` serializes
(src/index.js lines 71-76): protocol version "2.0", the constant id "0",
the method name, and the params value. -/
def jsonrpcEnvelope (method : String) (params : JSValue) : List (String × JSValue) :=
  [("jsonrpc", JSValue.str "2.0"), ("id", JSValue.str "0"),
   ("method", JSValue.str method), ("params", params)]

/-- `_buildJSONRPCReq` (src/index.js lines 67-88): URL is the node address
followed by "/json_rpc", body is the serialized envelope. -/
def buildJSONRPCReq (c : RpcClient) (method : String) (params : JSValue) : Req :=
  { url := c.nodeAddress ++ "/json_rpc",
    body := stringifyVal (JSValue.obj (jsonrpcEnvelope method params)) }

/-- `_buildOtherRPCReq` (src/index.js lines 90-101): URL is the node address
followed by "/" and the method name; when `typeof params === 'undefined'`
the descriptor is returned without a body, otherwise the body is the
serialized params value itself. -/
def buildOtherRPCReq (c : RpcClient) (method : String) (params : JSValue) : Req :=
  match params with
  | JSValue.undef => { url := c.nodeAddress ++ ("/" ++ method), body := none }
  | p => { url := c.nodeAddress ++ ("/" ++ method), body := stringifyVal p }

/-- The request `_send` builds (src/index.js line 49): the structured
builder when `isJSONRPC` holds, the direct builder otherwise. -/
def sendReq (c : RpcClient) (method : String) (params : JSValue) (isJSONRPC : Bool) : Req :=
  if isJSONRPC then buildJSONRPCReq c method params else buildOtherRPCReq c method params

/-- How the promise returned by `_send` settles. -/
inductive Outcome where
  | rejected (err : String)
  | resolvedRaw (data : String)
  | resolvedParsed (v : JSValue)

/-- The response callback of `_send` (src/index.js lines 54-63), given the
transport error (if any) and the raw response body.  The callback is a
`function` expression, not an arrow function, so the `this` inside it is
whatever binding the `request` library supplies when it invokes the
callback — the library's own request object, never the `rpcClient`
instance; `thisB` is that binding.  The branch that parses the body is
modelled with an abstract parser `parse` standing for `JSON.parse`, since
which parser sits there is irrelevant wherever that branch is dead. -/
def sendCallback (thisB : JSValue) (parse : String → Except String JSValue)
    (err : Option String) (data : String) : Outcome :=
  match err with
  | some e => Outcome.rejected e
  | none =>
    if truthy (getProp thisB "deserializeJSON") = false then Outcome.resolvedRaw data
    else
      match parse data with
      | Except.ok v => Outcome.resolvedParsed v
      | Except.error e => Outcome.rejected e

/-- What a public method call produces before any network traffic: a
synchronous exception escaping to the caller, a promise already rejected
locally, or a promise that goes on to POST the given request. -/
inductive MethodResult where
  | syncThrow (err : String)
  | rejectedPromise (err : String)
  | sendsRequest (r : Req)
deriving DecidableEq

/-- `getBlockCount` (src/index.js lines 113-115). -/
def getBlockCount (c : RpcClient) : MethodResult :=
  MethodResult.sendsRequest (sendReq c "getblockcount" JSValue.undef true)

/-- `onGetBlockHash` (src/index.js lines 129-131): wraps the height in a
single-element array; `isJSONRPC` defaults to true. -/
def onGetBlockHash (c : RpcClient) (height : JSValue) : MethodResult :=
  MethodResult.sendsRequest (sendReq c "on_getblockhash" (JSValue.arr [height]) true)

/-- The validation error message of `getBlockTemplate`
(src/index.js lines 156-158). -/
def templateErrMess : String :=
  "The argument should be an object with following fields:\n                      \x60wallet_address\x60 \x7bstring\x7d - required \n\n                      \x60reserve_size\x60 \x7binteger\x7d = required"

/-- `getBlockTemplate` (src/index.js lines 155-170).  The disjuncts of the
source's validation condition are evaluated left to right: `typeof args`,
then the property reads `args.wallet_address` and `args.reserve_size`
(which throw when `args` is `null` — `typeof null` is "object", so `null`
slips past the first disjunct), the truthiness test on the wallet address,
the `=== undefined`, `typeof` and `Number.isInteger` tests on the reserve
size.  A failed check returns a promise rejected with `templateErrMess`;
otherwise the structured request is sent. -/
def getBlockTemplate (c : RpcClient) (args : JSValue) : MethodResult :=
  if typeofJS args ≠ "object" then MethodResult.rejectedPromise templateErrMess
  else
    match member args "wallet_address" with
    | Except.error e => MethodResult.syncThrow e
    | Except.ok wa =>
      if typeofJS wa ≠ "string" then MethodResult.rejectedPromise templateErrMess
      else if truthy wa = false then MethodResult.rejectedPromise templateErrMess
      else
        match member args "reserve_size" with
        | Except.error e => MethodResult.syncThrow e
        | Except.ok rs =>
          if isUndef rs then MethodResult.rejectedPromise templateErrMess
          else if typeofJS rs ≠ "number" then MethodResult.rejectedPromise templateErrMess
          else if numberIsInteger rs = false then MethodResult.rejectedPromise templateErrMess
          else MethodResult.sendsRequest (sendReq c "getblocktemplate" args true)

/-- `submitBlock` (src/index.js lines 188-190).  The body is
`return this._send('submitblock', blockblob);` — the identifier
`blockblob` does not match the parameter `blockBlob` and is bound nowhere,
so evaluating the argument list throws a ReferenceError before `_send` is
reached, for every argument value. -/
def submitBlock (c : RpcClient) (blockBlob : JSValue) : MethodResult :=
  MethodResult.syncThrow "ReferenceError: blockblob is not defined"

/-- `getLastBlockHeader` (src/index.js lines 220-222). -/
def getLastBlockHeader (c : RpcClient) : MethodResult :=
  MethodResult.sendsRequest (sendReq c "getlastblockheader" JSValue.undef true)

/-- `getBlockHeaderByHash` (src/index.js lines 232-234): forwards its
argument as the params value. -/
def getBlockHeaderByHash (c : RpcClient) (hash : JSValue) : MethodResult :=
  MethodResult.sendsRequest (sendReq c "getblockheaderbyhash" hash true)

/-- `getBlockHeaderByHeight` (src/index.js lines 245-247).  The body is
`return this._send('getblockheaderbyheight');` — the `height` parameter is
never mentioned, so params is `undefined` on every call. -/
def getBlockHeaderByHeight (c : RpcClient) (height : JSValue) : MethodResult :=
  MethodResult.sendsRequest (sendReq c "getblockheaderbyheight" JSValue.undef true)

/-- `getBlock` (src/index.js lines 259-261): params is the object literal
`\x7bheight\x7d`; the `hash` parameter is never mentioned in the body. -/
def getBlock (c : RpcClient) (height hash : JSValue) : MethodResult :=
  MethodResult.sendsRequest (sendReq c "getblock" (JSValue.obj [("height", height)]) true)

/-- `getConnections` (src/index.js lines 297-299). -/
def getConnections (c : RpcClient) : MethodResult :=
  MethodResult.sendsRequest (sendReq c "get_connections" JSValue.undef true)

/-- `getInfo` (src/index.js lines 327-329). -/
def getInfo (c : RpcClient) : MethodResult :=
  MethodResult.sendsRequest (sendReq c "get_info" JSValue.undef true)

/-- `hardForkInfo` (src/index.js lines 352-354). -/
def hardForkInfo (c : RpcClient) : MethodResult :=
  MethodResult.sendsRequest (sendReq c "hard_fork_info" JSValue.undef true)

/-- `setBans` (src/index.js lines 371-374).  The guard is
`typeof nodes !== BanList`; evaluating the right-hand operand reads the
identifier `BanList`, which is bound nowhere in the module, so a
ReferenceError is thrown synchronously for every argument value. -/
def setBans (c : RpcClient) (nodes : JSValue) : MethodResult :=
  MethodResult.syncThrow "ReferenceError: BanList is not defined"

/-- `getBans` (src/index.js lines 394-396). -/
def getBans (c : RpcClient) : MethodResult :=
  MethodResult.sendsRequest (sendReq c "getbans" JSValue.undef true)

/-- `getHeight` (src/index.js lines 412-414): the direct convention. -/
def getHeight (c : RpcClient) : MethodResult :=
  MethodResult.sendsRequest (sendReq c "getheight" JSValue.undef false)

/-- `getTransactions` (src/index.js lines 431-436): destructures
`\x7btxs_hashes, decode_as_json = true\x7d` from its argument (a TypeError
when the argument is `null`/`undefined`, and the default applies when the
`decode_as_json` property is `undefined`), then sends under the direct
convention. -/
def getTransactions (c : RpcClient) (arg : JSValue) : MethodResult :=
  match member arg "txs_hashes", member arg "decode_as_json" with
  | Except.error e, _ => MethodResult.syncThrow e
  | _, Except.error e => MethodResult.syncThrow e
  | Except.ok txsHashes, Except.ok dj =>
    let decodeAsJson := if isUndef dj then JSValue.bool true else dj
    MethodResult.sendsRequest (sendReq c "gettransactions"
      (JSValue.obj [("txs_hashes", txsHashes), ("decode_as_json", decodeAsJson)]) false)

/-- `isKeyImageSpent` (src/index.js lines 453-455): destructures
`\x7bkey_images\x7d` and sends under the direct convention. -/
def isKeyImageSpent (c : RpcClient) (arg : JSValue) : MethodResult :=
  match member arg "key_images" with
  | Except.error e => MethodResult.syncThrow e
  | Except.ok keyImages =>
    MethodResult.sendsRequest (sendReq c "is_key_image_spent"
      (JSValue.obj [("key_images", keyImages)]) false)

/-- `sendRawTransaction` (src/index.js lines 468-470): destructures
`\x7btx_as_hex\x7d` and sends under the direct convention. -/
def sendRawTransaction (c : RpcClient) (arg : JSValue) : MethodResult :=
  match member arg "tx_as_hex" with
  | Except.error e => MethodResult.syncThrow e
  | Except.ok txAsHex =>
    MethodResult.sendsRequest (sendReq c "sendrawtransaction"
      (JSValue.obj [("tx_as_hex", txAsHex)]) false)

/-- `getTransactionPool` (src/index.js lines 503-505): the direct
convention. -/
def getTransactionPool (c : RpcClient) : MethodResult :=
  MethodResult.sendsRequest (sendReq c "get_transaction_pool" JSValue.undef false)

/-- `stopDaemon` (src/index.js lines 516-518): the direct convention. -/
def stopDaemon (c : RpcClient) : MethodResult :=
  MethodResult.sendsRequest (sendReq c "stop_daemon" JSValue.undef false)

/-- One call of the public API surface, with its argument values. -/
inductive ApiCall where
  | getBlockCount
  | onGetBlockHash (height : JSValue)
  | getBlockTemplate (args : JSValue)
  | submitBlock (blockBlob : JSValue)
  | getLastBlockHeader
  | getBlockHeaderByHash (hash : JSValue)
  | getBlockHeaderByHeight (height : JSValue)
  | getBlock (height hash : JSValue)
  | getConnections
  | getInfo
  | hardForkInfo
  | setBans (nodes : JSValue)
  | getBans
  | getHeight
  | getTransactions (arg : JSValue)
  | isKeyImageSpent (arg : JSValue)
  | sendRawTransaction (arg : JSValue)
  | getTransactionPool
  | stopDaemon

/-- Dispatch of one public call on a client. -/
def dispatchCall (c : RpcClient) : ApiCall → MethodResult
  | ApiCall.getBlockCount => getBlockCount c
  | ApiCall.onGetBlockHash h => onGetBlockHash c h
  | ApiCall.getBlockTemplate a => getBlockTemplate c a
  | ApiCall.submitBlock b => submitBlock c b
  | ApiCall.getLastBlockHeader => getLastBlockHeader c
  | ApiCall.getBlockHeaderByHash h => getBlockHeaderByHash c h
  | ApiCall.getBlockHeaderByHeight h => getBlockHeaderByHeight c h
  | ApiCall.getBlock h hs => getBlock c h hs
  | ApiCall.getConnections => getConnections c
  | ApiCall.getInfo => getInfo c
  | ApiCall.hardForkInfo => hardForkInfo c
  | ApiCall.setBans n => setBans c n
  | ApiCall.getBans => getBans c
  | ApiCall.getHeight => getHeight c
  | ApiCall.getTransactions a => getTransactions c a
  | ApiCall.isKeyImageSpent a => isKeyImageSpent c a
  | ApiCall.sendRawTransaction a => sendRawTransaction c a
  | ApiCall.getTransactionPool => getTransactionPool c
  | ApiCall.stopDaemon => stopDaemon c

/-- One public method call viewed as a state transformer on the client:
the result together with the client after the call.  No method body in
src/index.js assigns to `this` (the only assignments to the instance are
the two in the constructor), which the translation records by returning
the client unchanged. -/
def invoke (c : RpcClient) (k : ApiCall) : MethodResult × RpcClient :=
  (dispatchCall c k, c)

/-- The path each call's request URL appends to the node address: the
"/json_rpc" suffix for every structured call, "/" plus the wire method name
for every direct call. -/
def urlSuffix : ApiCall → String
  | ApiCall.getHeight => "/getheight"
  | ApiCall.getTransactions _ => "/gettransactions"
  | ApiCall.isKeyImageSpent _ => "/is_key_image_spent"
  | ApiCall.sendRawTransaction _ => "/sendrawtransaction"
  | ApiCall.getTransactionPool => "/get_transaction_pool"
  | ApiCall.stopDaemon => "/stop_daemon"
  | _ => "/json_rpc"

/-- The keys a serialized object retains: exactly the keys of the entries
whose value serializes to a string (entries with `undefined` values are the
ones `JSON.stringify` drops, so these are precisely the keys found when the
body is parsed back). -/
def serializedKeys (fs : List (String × JSValue)) : List String :=
  fs.filterMap (fun kv =>
    match stringifyVal kv.2 with
    | none => none
    | some _ => some kv.1)

/-- The block-template validation rules as the specification lists them,
read off the argument with total property lookup (a missing field reads as
`undefined`): the argument must be object-typed, `wallet_address` must be a
nonempty string, `reserve_size` must be an integer-valued number. -/
def violatesTemplateRules (args : JSValue) : Bool :=
  !(typeofJS args == "object") ||
  !(typeofJS (getProp args "wallet_address") == "string") ||
  !(truthy (getProp args "wallet_address")) ||
  !(typeofJS (getProp args "reserve_size") == "number") ||
  !(numberIsInteger (getProp args "reserve_size"))

/-- The client of the end-to-end scenario: base address
`http://node.example:18089`, auto-decode left at its default. -/
def nodeExampleClient : RpcClient :=
  { nodeAddress := "http://node.example:18089", deserializeJSON := true }

end MoneroRpc

namespace MoneroRpc

/-! ## Supporting lemmas -/

/-- Serialization yields no string exactly on `undefined`. -/
theorem stringifyVal_eq_none_iff (v : JSValue) : stringifyVal v = none ↔ v = JSValue.undef := by
  cases v <;> simp [stringifyVal]

/-- The `=== undefined` test characterises the `undefined` value. -/
theorem isUndef_eq_true_iff (v : JSValue) : isUndef v = true ↔ v = JSValue.undef := by
  cases v <;> simp [isUndef]

/-- A request the block-template wrapper actually sends is exactly the
structured `getblocktemplate` request for its argument. -/
theorem getBlockTemplate_sendsRequest_eq (c : RpcClient) (args : JSValue) (r : Req)
    (hr : getBlockTemplate c args = MethodResult.sendsRequest r) :
    r = sendReq c "getblocktemplate" args true := by
  unfold getBlockTemplate at hr
  repeat' split at hr
  all_goals first
    | exact (MethodResult.sendsRequest.inj hr).symm
    | exact absurd hr (by simp)

end MoneroRpc

namespace MoneroRpc

/-! ## Claims -/

/-- Claim C1: the specification says a client constructed with auto-decode
enabled resolves with the JSON-parsed response body (rejecting on parse
failure) and one constructed without it resolves with the raw body.  The
code contradicts its own constructor documentation: the response callback is
a plain `function`, so the `this.deserializeJSON` it reads is a property of
the HTTP library's callback binding, never the client's flag; the property
is absent there, the read yields `undefined`, and `!this.deserializeJSON`
is true, so every transport-successful call of every instance resolves with
the raw body string and the parsing branch is dead. -/
theorem sendCallback_resolves_raw_despite_decode_flag
    (thisB : JSValue) (h : getProp thisB "deserializeJSON" = JSValue.undef)
    (parse : String → Except String JSValue) (data : String) :
    sendCallback thisB parse none data = Outcome.resolvedRaw data := by
  simp [sendCallback, h, truthy]

/-- Witness for C1: a callback binding without the `deserializeJSON`
property, a parser that fails on the body — the call still resolves with
the raw string. -/
theorem sendCallback_resolves_raw_witness :
    sendCallback (JSValue.obj []) (fun _ => Except.error "SyntaxError")
        none "\x7b\"count\":9933,\"status\":\"OK\"\x7d"
      = Outcome.resolvedRaw "\x7b\"count\":9933,\"status\":\"OK\"\x7d" :=
  sendCallback_resolves_raw_despite_decode_flag (JSValue.obj []) rfl
    (fun _ => Except.error "SyntaxError") "\x7b\"count\":9933,\"status\":\"OK\"\x7d"

/-- Claim C2: the specification says every failure surfaces as a rejected
asynchronous result and in particular `submitBlock` and `setBans` return
promises rather than throwing.  In the code both methods throw a
ReferenceError synchronously on every argument: `submitBlock` reads the
unbound identifier `blockblob` (a misspelling of its parameter `blockBlob`)
and `setBans` reads the unbound identifier `BanList` in its guard. -/
theorem submitBlock_setBans_throw_synchronously (c : RpcClient) (blockBlob nodes : JSValue) :
    submitBlock c blockBlob
        = MethodResult.syncThrow "ReferenceError: blockblob is not defined" ∧
    setBans c nodes
        = MethodResult.syncThrow "ReferenceError: BanList is not defined" :=
  ⟨rfl, rfl⟩

/-- Counterexample to claim C3: with params absent, the serialized envelope
of a structured call, parsed back, has only the three keys `jsonrpc`, `id`,
`method` — `JSON.stringify` drops the `params` entry because its value is
`undefined` — so the body of a no-params call like `getblockcount` carries
no `params` key at all. -/
theorem structured_params_key_dropped_cex :
    serializedKeys (jsonrpcEnvelope "getblockcount" JSValue.undef)
        = ["jsonrpc", "id", "method"] ∧
    serializedKeys (jsonrpcEnvelope "getblockcount" JSValue.undef)
        ≠ ["jsonrpc", "id", "method", "params"] ∧
    (buildJSONRPCReq nodeExampleClient "getblockcount" JSValue.undef).body
        = some "\x7b\"jsonrpc\":\"2.0\",\"id\":\"0\",\"method\":\"getblockcount\"\x7d" := by
  refine ⟨rfl, ?_, rfl⟩
  decide

/-- Claim C3 as amended: for every structured call whose params is present
(not `undefined`), the serialized body parsed back has exactly the keys
`jsonrpc`, `id`, `method`, `params`, with `jsonrpc` constantly "2.0" and
`id` constantly "0", and the target URL is the base address followed by
"/json_rpc"; when params is absent the `params` key is dropped and the
other three keys remain. -/
theorem structured_envelope_keys_amended (c : RpcClient) (method : String) (params : JSValue)
    (h : params ≠ JSValue.undef) :
    serializedKeys (jsonrpcEnvelope method params) = ["jsonrpc", "id", "method", "params"] ∧
    lookupField (jsonrpcEnvelope method params) "jsonrpc" = JSValue.str "2.0" ∧
    lookupField (jsonrpcEnvelope method params) "id" = JSValue.str "0" ∧
    (buildJSONRPCReq c method params).url = c.nodeAddress ++ "/json_rpc" := by
  obtain ⟨s, hs⟩ : ∃ s, stringifyVal params = some s := by
    cases hv : stringifyVal params
    · exact absurd ((stringifyVal_eq_none_iff params).mp hv) h
    · exact ⟨_, rfl⟩
  refine ⟨?_, rfl, rfl, rfl⟩
  simp [serializedKeys, jsonrpcEnvelope, stringifyVal, hs]

/-- Witness for C3 (amended): the envelope of `on_getblockhash` with params
`[1000]` keeps all four keys, carries the constant version and id, and
targets the base address followed by "/json_rpc". -/
theorem structured_envelope_keys_amended_witness :
    serializedKeys (jsonrpcEnvelope "on_getblockhash" (JSValue.arr [JSValue.num 1000 0]))
        = ["jsonrpc", "id", "method", "params"] ∧
    lookupField (jsonrpcEnvelope "on_getblockhash" (JSValue.arr [JSValue.num 1000 0])) "jsonrpc"
        = JSValue.str "2.0" ∧
    lookupField (jsonrpcEnvelope "on_getblockhash" (JSValue.arr [JSValue.num 1000 0])) "id"
        = JSValue.str "0" ∧
    (buildJSONRPCReq nodeExampleClient "on_getblockhash" (JSValue.arr [JSValue.num 1000 0])).url
        = nodeExampleClient.nodeAddress ++ "/json_rpc" :=
  structured_envelope_keys_amended nodeExampleClient "on_getblockhash"
    (JSValue.arr [JSValue.num 1000 0]) (by simp)

/-- Counterexample to claim C4: `null` violates the validation rules (it is
not an object carrying the required fields), yet the call does not produce
an immediately-rejected promise — `typeof null` is "object", so `null`
passes the first check and the property read `args.wallet_address` throws a
synchronous TypeError instead. -/
theorem getBlockTemplate_null_throws_cex :
    violatesTemplateRules JSValue.null = true ∧
    getBlockTemplate nodeExampleClient JSValue.null
        = MethodResult.syncThrow "TypeError: Cannot read property wallet_address of null" ∧
    getBlockTemplate nodeExampleClient JSValue.null
        ≠ MethodResult.rejectedPromise templateErrMess := by
  refine ⟨rfl, rfl, ?_⟩
  decide

/-- Claim C4 as amended: for every argument other than `null`, violating any
of the validation rules is equivalent to the call producing the
immediately-rejected promise (so it never reaches the network layer), and an
argument violating none of them proceeds to the structured
`getblocktemplate` request; `null` alone escapes the check and throws a
synchronous TypeError. -/
theorem getBlockTemplate_validation_amended (c : RpcClient) (args : JSValue)
    (h : args ≠ JSValue.null) :
    (getBlockTemplate c args = MethodResult.rejectedPromise templateErrMess ↔
      violatesTemplateRules args = true) ∧
    (violatesTemplateRules args = false →
      getBlockTemplate c args
        = MethodResult.sendsRequest (sendReq c "getblocktemplate" args true)) := by
  cases args
  case null => exact absurd rfl h
  case obj fs =>
    by_cases h1 : typeofJS (lookupField fs "wallet_address") = "string" <;>
      by_cases h2 : truthy (lookupField fs "wallet_address") = true <;>
      rcases hrs : lookupField fs "reserve_size" with _ | _ | b | ⟨m, e⟩ | s | xs | gs <;>
      simp_all [getBlockTemplate, violatesTemplateRules, member, getProp, typeofJS,
        isUndef, numberIsInteger, truthy]
  all_goals
    simp [getBlockTemplate, violatesTemplateRules, member, getProp, typeofJS, truthy]

/-- Witness for C4 (amended): the three concrete block-template arguments of
the specification — empty wallet address rejects, fractional reserve size
rejects, and a nonempty address with integer reserve size proceeds to the
network layer. -/
theorem getBlockTemplate_validation_amended_witness :
    getBlockTemplate nodeExampleClient
        (JSValue.obj [("wallet_address", JSValue.str ""), ("reserve_size", JSValue.num 8 0)])
        = MethodResult.rejectedPromise templateErrMess ∧
    getBlockTemplate nodeExampleClient
        (JSValue.obj [("wallet_address", JSValue.str "abc"), ("reserve_size", JSValue.num 85 1)])
        = MethodResult.rejectedPromise templateErrMess ∧
    getBlockTemplate nodeExampleClient
        (JSValue.obj [("wallet_address", JSValue.str "abc"), ("reserve_size", JSValue.num 8 0)])
        = MethodResult.sendsRequest (sendReq nodeExampleClient "getblocktemplate"
            (JSValue.obj [("wallet_address", JSValue.str "abc"), ("reserve_size", JSValue.num 8 0)]) true) :=
  ⟨(getBlockTemplate_validation_amended nodeExampleClient _ (by simp)).1.mpr (by decide),
   (getBlockTemplate_validation_amended nodeExampleClient _ (by simp)).1.mpr (by decide),
   (getBlockTemplate_validation_amended nodeExampleClient _ (by simp)).2 (by decide)⟩

end MoneroRpc

namespace MoneroRpc

/-- Claim C5: under the direct convention the URL is the base address
followed by "/" and the method name; with params absent the descriptor
carries no body, and with params present the body is exactly the serialized
params value, no envelope added. -/
theorem direct_request_shape (c : RpcClient) (method : String) (params : JSValue) :
    (buildOtherRPCReq c method params).url = c.nodeAddress ++ ("/" ++ method) ∧
    (buildOtherRPCReq c method params).body = stringifyVal params ∧
    ((buildOtherRPCReq c method params).body = none ↔ params = JSValue.undef) := by
  cases params <;> simp [buildOtherRPCReq, stringifyVal]

/-- Claim C6 is refuted by the code: `getBlockHeaderByHeight` never mentions
its `height` parameter — every call sends the structured
`getblockheaderbyheight` request with params `undefined`, whose serialized
body has no `params` key at all, contradicting the method's own
documentation that the height is an input parameter of the request. -/
theorem getBlockHeaderByHeight_drops_height (c : RpcClient) (height height2 : JSValue) :
    getBlockHeaderByHeight c height = getBlockHeaderByHeight c height2 ∧
    getBlockHeaderByHeight c height
        = MethodResult.sendsRequest (buildJSONRPCReq c "getblockheaderbyheight" JSValue.undef) ∧
    serializedKeys (jsonrpcEnvelope "getblockheaderbyheight" JSValue.undef)
        = ["jsonrpc", "id", "method"] :=
  ⟨rfl, rfl, rfl⟩

/-- Claim C7: `onGetBlockHash` wraps any height value in a single-element
array as the params of a structured `on_getblockhash` call, and for the
client with base address `http://node.example:18089` and height 1000 the
outgoing request targets `http://node.example:18089/json_rpc` with the body
`\x7b"jsonrpc":"2.0","id":"0","method":"on_getblockhash","params":[1000]\x7d`. -/
theorem onGetBlockHash_request_shape :
    (∀ (c : RpcClient) (v : JSValue),
        onGetBlockHash c v
          = MethodResult.sendsRequest (buildJSONRPCReq c "on_getblockhash" (JSValue.arr [v]))) ∧
    onGetBlockHash nodeExampleClient (JSValue.num 1000 0)
        = MethodResult.sendsRequest
            { url := "http://node.example:18089/json_rpc",
              body := some "\x7b\"jsonrpc\":\"2.0\",\"id\":\"0\",\"method\":\"on_getblockhash\",\"params\":[1000]\x7d" } :=
  ⟨fun _ _ => rfl, rfl⟩

/-- Claim C8: request building is deterministic — two builds from the same
(method, params, convention) input on the same client are equal — and the
envelope's id entry is the constant string "0" for every call, so nothing
beyond the inputs (no timestamp, no nonce) enters the request. -/
theorem request_building_deterministic (c : RpcClient) (method : String) (params : JSValue)
    (isJSONRPC : Bool) (r1 r2 : Req)
    (h1 : sendReq c method params isJSONRPC = r1) (h2 : sendReq c method params isJSONRPC = r2) :
    r1 = r2 ∧ lookupField (jsonrpcEnvelope method params) "id" = JSValue.str "0" := by
  subst h1 h2
  exact ⟨rfl, rfl⟩

/-- Witness for C8: building the `getblockcount` request twice gives the
same descriptor, and its envelope id is "0". -/
theorem request_building_deterministic_witness :
    sendReq nodeExampleClient "getblockcount" JSValue.undef true
        = sendReq nodeExampleClient "getblockcount" JSValue.undef true ∧
    lookupField (jsonrpcEnvelope "getblockcount" JSValue.undef) "id" = JSValue.str "0" :=
  request_building_deterministic nodeExampleClient "getblockcount" JSValue.undef true
    (sendReq nodeExampleClient "getblockcount" JSValue.undef true)
    (sendReq nodeExampleClient "getblockcount" JSValue.undef true) rfl rfl

/-- Claim C9: no public call mutates the client — `invoke` returns the
endpoint configuration unchanged — and every request a call actually sends
targets the client's own base address: its URL is the base address followed
by the call's fixed suffix ("/json_rpc" for structured calls, "/" plus the
wire method name for direct calls). -/
theorem endpoint_config_immutable (c : RpcClient) (k : ApiCall) :
    (invoke c k).2 = c ∧
    ∀ r : Req, (invoke c k).1 = MethodResult.sendsRequest r →
      r.url = c.nodeAddress ++ urlSuffix k := by
  refine ⟨rfl, fun r hr => ?_⟩
  cases k
  case getBlockTemplate a =>
    rw [getBlockTemplate_sendsRequest_eq c a r hr]
    rfl
  case getTransactions a =>
    simp only [invoke, dispatchCall, getTransactions] at hr
    split at hr
    · exact absurd hr (by simp)
    · exact absurd hr (by simp)
    · rw [← MethodResult.sendsRequest.inj hr]
      rfl
  case isKeyImageSpent a =>
    simp only [invoke, dispatchCall, isKeyImageSpent] at hr
    split at hr
    · exact absurd hr (by simp)
    · rw [← MethodResult.sendsRequest.inj hr]
      rfl
  case sendRawTransaction a =>
    simp only [invoke, dispatchCall, sendRawTransaction] at hr
    split at hr
    · exact absurd hr (by simp)
    · rw [← MethodResult.sendsRequest.inj hr]
      rfl
  case submitBlock b => exact absurd hr (by simp [invoke, dispatchCall, submitBlock])
  case setBans n => exact absurd hr (by simp [invoke, dispatchCall, setBans])
  all_goals
    rw [← MethodResult.sendsRequest.inj hr]
    rfl

/-- Witness for C9: the direct `getheight` call leaves the client unchanged
and its request URL is the base address followed by "/getheight". -/
theorem endpoint_config_immutable_witness :
    (invoke nodeExampleClient ApiCall.getHeight).2 = nodeExampleClient ∧
    (Req.mk "http://node.example:18089/getheight" none).url
        = nodeExampleClient.nodeAddress ++ urlSuffix ApiCall.getHeight :=
  ⟨(endpoint_config_immutable nodeExampleClient ApiCall.getHeight).1,
   (endpoint_config_immutable nodeExampleClient ApiCall.getHeight).2
     (Req.mk "http://node.example:18089/getheight" none) rfl⟩

/-- Claim C10: `getBlock` builds exactly the structured `getblock` request
whose params is the single-key object `\x7bheight\x7d`; the `hash` parameter
never enters the request, so two calls differing only in the hash build the
same request — concretely, at height 912345 the body's params is
`\x7b"height":912345\x7d` whatever the hash argument was. -/
theorem getBlock_ignores_hash (c : RpcClient) (height hash hash2 : JSValue) :
    getBlock c height hash
        = MethodResult.sendsRequest
            (buildJSONRPCReq c "getblock" (JSValue.obj [("height", height)])) ∧
    getBlock c height hash = getBlock c height hash2 ∧
    getBlock nodeExampleClient (JSValue.num 912345 0)
        (JSValue.str "e22cf75f39ae720e8b71b3d120a5ac03f0db50bba6379e2850975b4859190bc6")
        = MethodResult.sendsRequest
            { url := "http://node.example:18089/json_rpc",
              body := some "\x7b\"jsonrpc\":\"2.0\",\"id\":\"0\",\"method\":\"getblock\",\"params\":\x7b\"height\":912345\x7d\x7d" } :=
  ⟨rfl, rfl, rfl⟩

end MoneroRpc
